import Mathlib

/-!
Verification development for the `angelkfrontend` single-page application.

The repository's application logic lives in `src/src/App.jsx`:
a path normalizer (`parsePathFrom`), a navigation store (`navigate` inside
`RouterProvider`), a view resolver (`AppRouterSwitch`), a theme store
(`ThemeProvider`), and the contact form (`validateForm` / `onSubmit`).
JavaScript strings are embedded as `List Char`; the browser world
(location, history, timers, localStorage, document attribute, network)
is embedded as explicit state records.
-/

namespace AngelK

/-- Embedding of JavaScript string literals as character lists. -/
def toL (s : String) : List Char := s.toList

/-- Whitespace class used by JavaScript `String.prototype.trim` (embedded
via Lean's `Char.isWhitespace`). -/
def isWs (c : Char) : Bool := c.isWhitespace

/-- A character of the regex class `\S` (non-whitespace). -/
def nonSpace (c : Char) : Bool := !(isWs c)

/-- Embedding of JavaScript `String.prototype.trim`: drop leading and
trailing whitespace. -/
def trimList (s : List Char) : List Char :=
  ((s.dropWhile isWs).reverse.dropWhile isWs).reverse

/-- A list is trimmed when it has no leading and no trailing whitespace. -/
def IsTrimmed (s : List Char) : Prop :=
  s.dropWhile isWs = s ∧ s.reverse.dropWhile isWs = s.reverse

/-- PathNormalizer. Source (`src/src/App.jsx`, lines 40-43):
```
const parsePathFrom = (path) => {
  const p = (path || "/").trim();
  return p.startsWith("/") ? p : "/" + p;
};
```
`path || "/"` replaces an `undefined` (here: `none`) or empty-string
argument by `"/"` (that replacement is `coalesceInput` below);
`.startsWith("/")` with a one-character pattern is a test on the first
character. -/
def coalesceInput (path : Option (List Char)) : List Char :=
  match path with
  | none => toL "/"
  | some s => if s = [] then toL "/" else s

/-- The normalizer itself; `trimList (coalesceInput path)` is the local
`p` of the source. -/
def parsePathFrom (path : Option (List Char)) : List Char :=
  if (trimList (coalesceInput path)).head? = some '/' then
    trimList (coalesceInput path)
  else '/' :: trimList (coalesceInput path)

/-- The identifiers of the seven page views mounted by the router. -/
inductive ViewId
  | home
  | about
  | brands
  | media
  | contact
  | privacy
  | terms
deriving DecidableEq, Repr

/-- ViewResolver. Source (`src/src/App.jsx`, lines 1085-1098), the routing
core of the `AppRouterSwitch` component:
```
if (route.startsWith('/about')) return <About/>;
if (route.startsWith('/brands')) return <Brands/>;
if (route.startsWith('/media')) return <Media/>;
if (route.startsWith('/contact')) return <Contact/>;
if (route.startsWith('/privacy')) return <Privacy/>;
if (route.startsWith('/terms')) return <Terms/>;
return <Home/>;
``` -/
def AppRouterSwitch (route : List Char) : ViewId :=
  if (toL "/about").isPrefixOf route then ViewId.about
  else if (toL "/brands").isPrefixOf route then ViewId.brands
  else if (toL "/media").isPrefixOf route then ViewId.media
  else if (toL "/contact").isPrefixOf route then ViewId.contact
  else if (toL "/privacy").isPrefixOf route then ViewId.privacy
  else if (toL "/terms").isPrefixOf route then ViewId.terms
  else ViewId.home

/-- The ordered table of (path-start, view) pairs implied by the spec's
ViewResolver description, in the source's fixed order. -/
def viewTable : List (List Char × ViewId) :=
  [(toL "/about", ViewId.about), (toL "/brands", ViewId.brands),
   (toL "/media", ViewId.media), (toL "/contact", ViewId.contact),
   (toL "/privacy", ViewId.privacy), (toL "/terms", ViewId.terms)]

/-- Modelled from the spec's words (for comparison with `AppRouterSwitch`):
return the ViewId of the first pair of the ordered table whose path-start
the route starts with, falling back to the home view when none matches. -/
def resolveFirstMatch (route : List Char) : ViewId :=
  match viewTable.find? (fun e => e.1.isPrefixOf route) with
  | some e => e.2
  | none => ViewId.home

/-- The world state of the navigation store (`RouterProvider`):
`location` is `window.location.pathname + window.location.search`,
`historyStack` the entries pushed via `window.history.pushState` (most
recent first), `route` and `loading` the React state variables, `timers`
the pending `setTimeout(() => setLoading(false), 300)` fire times, and
`popSignals` the number of `popstate` events dispatched. -/
structure NavState where
  location : List Char
  historyStack : List (List Char)
  route : List Char
  loading : Bool
  timers : List Nat
  popSignals : Nat
deriving DecidableEq, Repr

/-- NavigationStore. Source (`src/src/App.jsx`, lines 63-75):
```
const navigate = (to, options = {}) => {
  const path = parsePathFrom(to);
  const current = window.location.pathname + window.location.search;
  if (path !== current) {
    if (options.showLoader) setLoading(true);
    window.history.pushState({}, "", path);
    // Update state directly (do not dispatch popstate)
    setRoute(path);
    if (options.showLoader) {
      setTimeout(() => setLoading(false), 300);
    }
  }
};
```
`now` is the event-loop time at which the call runs, so the scheduled
clear fires at `now + 300`. -/
def navigate (s : NavState) (now : Nat) (dest : Option (List Char))
    (showLoader : Bool) : NavState :=
  let path := parsePathFrom dest
  if path = s.location then s
  else
    { location := path
      historyStack := path :: s.historyStack
      route := path
      loading := if showLoader then true else s.loading
      timers := if showLoader then s.timers ++ [now + 300] else s.timers
      popSignals := s.popSignals }

/-- Firing of a scheduled `setTimeout(() => setLoading(false), 300)`
callback at time `t`: it unconditionally clears `loading`. -/
def fireClear (s : NavState) (t : Nat) : NavState :=
  if t ∈ s.timers then { s with loading := false, timers := s.timers.erase t }
  else s

/-- The `popstate` listener of `RouterProvider`: sets the route from the
current browser location (`setRoute(getCurrentPath())`). -/
def onPop (s : NavState) : NavState :=
  { s with route := parsePathFrom (some s.location),
           popSignals := s.popSignals + 1 }

/-- The world state of the theme store (`ThemeProvider`): the React
`theme` state, the `localStorage` entry under key `theme`, and the
document's `data-theme` attribute. -/
structure ThemeState where
  theme : List Char
  storage : Option (List Char)
  docAttr : Option (List Char)
deriving DecidableEq, Repr

/-- Theme startup. Source (`src/src/App.jsx`, lines 20-24):
```
const savedTheme = localStorage.getItem('theme') || 'dark';
setTheme(savedTheme);
document.documentElement.setAttribute('data-theme', savedTheme);
```
`getItem` yields `null` (`none`) for an absent key; `|| 'dark'` also
replaces the empty string. -/
def initTheme (stored : Option (List Char)) : ThemeState :=
  let savedTheme := match stored with
    | none => toL "dark"
    | some v => if v = [] then toL "dark" else v
  { theme := savedTheme, storage := stored, docAttr := some savedTheme }

/-- Theme toggle. Source (`src/src/App.jsx`, lines 13-18):
```
const newTheme = theme === 'dark' ? 'light' : 'dark';
setTheme(newTheme);
document.documentElement.setAttribute('data-theme', newTheme);
localStorage.setItem('theme', newTheme);
``` -/
def toggleTheme (s : ThemeState) : ThemeState :=
  let newTheme := if s.theme = toL "dark" then toL "light" else toL "dark"
  { theme := newTheme, storage := some newTheme, docAttr := some newTheme }

/-- The contact form submission states of `Contact` (`useState('idle')`). -/
inductive SubmitStatus
  | idle
  | submitting
  | success
  | error
deriving DecidableEq, Repr

/-- The three contact form fields (`useState({ name:'', email:'', message:'' })`). -/
structure ContactForm where
  name : List Char
  email : List Char
  message : List Char
deriving DecidableEq, Repr

/-- The per-field validation errors object (`setFormErrors(errors)`); a
`none` field is an absent key of the JavaScript `errors` object. -/
structure FormErrors where
  name : Option (List Char)
  email : Option (List Char)
  message : Option (List Char)
deriving DecidableEq, Repr

/-- All splits of a list into two contiguous pieces. -/
def splitsList (s : List Char) : List (List Char × List Char) :=
  (List.range (s.length + 1)).map (fun i => (s.take i, s.drop i))

/-- Whether a list is a nonempty run of `\S` (non-whitespace) characters:
the language of the regex piece `\S+`. -/
def runTest (x : List Char) : Bool := !x.isEmpty && x.all nonSpace

/-- Continuation of the email pattern after the literal `'.'`: the rest
must start with `'.'` followed by a `\S+` run (`splitsList` searches the
boundary of that run). -/
def dotTail : List Char → Bool
  | [] => false
  | d :: r =>
    if d = '.' then (splitsList r).any fun wr => runTest wr.1
    else false

/-- Continuation of the email pattern after the literal `'@'`: the rest
must start with `'@'` followed by a `\S+` run and then a `dotTail`. -/
def atTail : List Char → Bool
  | [] => false
  | d :: r =>
    if d = '@' then (splitsList r).any fun vr => runTest vr.1 && dotTail vr.2
    else false

/-- Embedding of the JavaScript regex test `/\S+@\S+\.\S+/.test(s)` of
`validateForm`: the unanchored pattern matches `s` exactly when some
decomposition `s = pre ++ u ++ "@" ++ v ++ "." ++ w ++ post` exists with
`u`, `v`, `w` nonempty runs of non-whitespace characters; the search over
all such decompositions is spelled out with `splitsList` and the
continuations `atTail` / `dotTail`. -/
def emailTest (s : List Char) : Bool :=
  (splitsList s).any fun pr =>
    (splitsList pr.2).any fun ur => runTest ur.1 && atTail ur.2

/-- Contact form validation. Source (`src/src/App.jsx`, lines 825-834):
```
const errors = {};
if (!form.name.trim()) errors.name = 'Name is required';
if (!form.email.trim()) errors.email = 'Email is required';
else if (!/\S+@\S+\.\S+/.test(form.email)) errors.email = 'Email is invalid';
if (!form.message.trim()) errors.message = 'Message is required';
setFormErrors(errors);
return Object.keys(errors).length === 0;
```
A string is falsy exactly when it is empty, so `!form.name.trim()` tests
whether the trimmed field is empty. -/
def validateForm (f : ContactForm) : FormErrors :=
  { name := if trimList f.name = [] then some (toL "Name is required") else none
    email :=
      if trimList f.email = [] then some (toL "Email is required")
      else if emailTest f.email = false then some (toL "Email is invalid")
      else none
    message :=
      if trimList f.message = [] then some (toL "Message is required") else none }

/-- `Object.keys(errors).length === 0`: no field carries an error. -/
def noErrorKeys (e : FormErrors) : Bool :=
  e.name.isNone && e.email.isNone && e.message.isNone

/-- The world state of the `Contact` component: the `status` and `error`
React state, the form fields, the last validation errors, and the list of
outbound `fetch` POST bodies issued so far. -/
structure ContactState where
  status : SubmitStatus
  error : List Char
  form : ContactForm
  formErrors : FormErrors
  requests : List ContactForm
deriving DecidableEq, Repr

/-- The outcome of the awaited `fetch`: an HTTP response with a status
code, or a transport-level failure (the promise rejects). -/
inductive FetchOutcome
  | response (code : Nat)
  | networkFailure
deriving DecidableEq, Repr

/-- `Response.ok` of the Fetch API: the status code is in 200..299. -/
def resOk (code : Nat) : Bool := 200 ≤ code && code ≤ 299

/-- The single generic submission error message of `onSubmit`. -/
def genericSubmitError : List Char :=
  toL "Could not submit to backend. Check API_BASE and /api/contact endpoint."

/-- Contact submission handler. Source (`src/src/App.jsx`, lines 836-859):
```
if (!validateForm()) return;
setStatus('submitting');
setError('');
try {
  const res = await fetch(`API_BASE/api/contact`, { ... body: JSON.stringify(form) });
  if (!res.ok) throw new Error(`HTTP res.status`);
  setStatus('success');
  setForm({ name: '', email: '', message: '' });
} catch (err) {
  setError('Could not submit to backend. ...');
  setStatus('error');
}
```
The awaited response is passed in as `outcome`; the POST body is recorded
on `requests` at the moment the request is issued. -/
def onSubmit (s : ContactState) (outcome : FetchOutcome) : ContactState :=
  let errs := validateForm s.form
  if noErrorKeys errs = false then { s with formErrors := errs }
  else
    let s1 : ContactState :=
      { s with formErrors := errs
               status := SubmitStatus.submitting
               error := []
               requests := s.requests ++ [s.form] }
    match outcome with
    | FetchOutcome.response code =>
        if resOk code then
          { s1 with status := SubmitStatus.success, form := ⟨[], [], []⟩ }
        else
          { s1 with status := SubmitStatus.error, error := genericSubmitError }
    | FetchOutcome.networkFailure =>
        { s1 with status := SubmitStatus.error, error := genericSubmitError }

end AngelK

namespace AngelK

/- Helper lemmas about `dropWhile` and `trimList`. -/

theorem dropWhile_head_false {p : Char → Bool} {l : List Char} {a : Char}
    {t : List Char} (h : l.dropWhile p = a :: t) : p a = false := by
  induction l with
  | nil => simp [List.dropWhile] at h
  | cons b l ih =>
    rw [List.dropWhile_cons] at h
    by_cases hb : p b
    · simp [hb] at h
      exact ih h
    · simp [hb] at h
      rw [← h.1]
      exact Bool.of_not_eq_true hb

theorem dropWhile_cons_of_false {p : Char → Bool} {a : Char} (l : List Char)
    (h : p a = false) : (a :: l).dropWhile p = a :: l := by
  simp [List.dropWhile_cons, h]

/-- If the head (if any) does not satisfy `p`, `dropWhile p` is the identity. -/
theorem dropWhile_eq_self_of_head {p : Char → Bool} {l : List Char}
    (h : ∀ a, l.head? = some a → p a = false) : l.dropWhile p = l := by
  cases l with
  | nil => rfl
  | cons a t => exact dropWhile_cons_of_false t (h a rfl)

/-- `dropWhile` keeps the last element of the list when its result is
nonempty. -/
theorem getLast?_dropWhile {p : Char → Bool} {l : List Char}
    (h : l.dropWhile p ≠ []) : (l.dropWhile p).getLast? = l.getLast? := by
  induction l with
  | nil => simp at h
  | cons a t ih =>
    rw [List.dropWhile_cons]
    by_cases ha : p a
    · simp only [ha, if_true]
      rw [List.dropWhile_cons, if_pos ha] at h
      have ht : t ≠ [] := by
        intro he; rw [he] at h; simp [List.dropWhile] at h
      rw [ih h]
      cases t with
      | nil => exact absurd rfl ht
      | cons b u => rw [List.getLast?_cons_cons]
    · simp [ha]

theorem isTrimmed_nil : IsTrimmed [] := ⟨rfl, rfl⟩

theorem isTrimmed_trimList (s : List Char) : IsTrimmed (trimList s) := by
  unfold trimList
  constructor
  · -- no leading whitespace on the final reverse
    apply dropWhile_eq_self_of_head
    intro a ha
    rw [List.head?_reverse] at ha
    have hen : (s.dropWhile isWs).reverse.dropWhile isWs ≠ [] := by
      intro h0; rw [h0] at ha; simp at ha
    rw [getLast?_dropWhile hen, List.getLast?_reverse] at ha
    cases hdd : s.dropWhile isWs with
    | nil => rw [hdd] at ha; simp at ha
    | cons b u =>
      rw [hdd] at ha
      simp at ha
      subst ha
      exact dropWhile_head_false hdd
  · -- no trailing whitespace: the reverse is already a `dropWhile`
    rw [List.reverse_reverse]
    exact List.dropWhile_idempotent isWs _

theorem trimList_eq_self {s : List Char} (h : IsTrimmed s) : trimList s = s := by
  unfold trimList
  rw [h.1, h.2, List.reverse_reverse]

/-- Prepending a non-whitespace character preserves trimmedness. -/
theorem isTrimmed_cons {s : List Char} {c : Char} (h : IsTrimmed s)
    (hc : isWs c = false) : IsTrimmed (c :: s) := by
  constructor
  · exact dropWhile_cons_of_false s hc
  · rw [List.reverse_cons]
    cases hs : s.reverse with
    | nil => simp [List.dropWhile_cons, hc]
    | cons a t =>
      have ha : isWs a = false := by
        have h2 := h.2
        rw [hs] at h2
        exact dropWhile_head_false h2
      rw [List.cons_append]
      exact dropWhile_cons_of_false _ ha

/-- The normalizer always yields a list starting with `'/'`. -/
theorem parsePathFrom_head (path : Option (List Char)) :
    (parsePathFrom path).head? = some '/' := by
  unfold parsePathFrom
  split
  · assumption
  · rfl

/-- The normalizer always yields a trimmed list. -/
theorem parsePathFrom_isTrimmed (path : Option (List Char)) :
    IsTrimmed (parsePathFrom path) := by
  unfold parsePathFrom
  split
  · exact isTrimmed_trimList _
  · refine isTrimmed_cons (isTrimmed_trimList _) ?_
    decide

/-- A trimmed list starting with `'/'` is a fixed point of the normalizer. -/
theorem parsePathFrom_of_normalized {r : List Char} (hhead : r.head? = some '/')
    (htr : IsTrimmed r) : parsePathFrom (some r) = r := by
  have hne : r ≠ [] := by
    intro h0; rw [h0] at hhead; simp at hhead
  have hco : coalesceInput (some r) = r := by
    unfold coalesceInput; simp [hne]
  unfold parsePathFrom
  rw [hco, trimList_eq_self htr, hhead]
  simp

/-- C3: path normalization is idempotent: for every string `s`,
`parsePathFrom (parsePathFrom s)` equals `parsePathFrom s`. -/
theorem parsePathFrom_idempotent (s : List Char) :
    parsePathFrom (some (parsePathFrom (some s))) = parsePathFrom (some s) :=
  parsePathFrom_of_normalized (parsePathFrom_head _) (parsePathFrom_isTrimmed _)

/-- C4: path normalization is total and satisfies: input is trimmed;
empty or `undefined` input yields `"/"`; a trimmed input already starting
with `'/'` is returned unchanged (including any query suffix); any other
trimmed input gets `'/'` prepended; every result is nonempty and starts
with `'/'`; and the concrete values `""` to `"/"`, `"about"` to
`"/about"`, `"/terms?x=1"` to `"/terms?x=1"` hold. -/
theorem parsePathFrom_total_spec :
    parsePathFrom none = toL "/" ∧
    parsePathFrom (some (toL "")) = toL "/" ∧
    parsePathFrom (some (toL "about")) = toL "/about" ∧
    parsePathFrom (some (toL "/terms?x=1")) = toL "/terms?x=1" ∧
    (∀ path : Option (List Char),
      parsePathFrom path ≠ [] ∧ (parsePathFrom path).head? = some '/') ∧
    (∀ s : List Char, IsTrimmed s → s.head? = some '/' →
      parsePathFrom (some s) = s) ∧
    (∀ s : List Char, IsTrimmed s → s ≠ [] → s.head? ≠ some '/' →
      parsePathFrom (some s) = '/' :: s) := by
  refine ⟨by decide, by decide, by decide, by decide, ?_, ?_, ?_⟩
  · intro path
    refine ⟨?_, parsePathFrom_head path⟩
    intro h0
    have hh := parsePathFrom_head path
    rw [h0] at hh
    simp at hh
  · intro s htr hhead
    exact parsePathFrom_of_normalized hhead htr
  · intro s htr hne hhead
    have hco : coalesceInput (some s) = s := by
      unfold coalesceInput; simp [hne]
    unfold parsePathFrom
    rw [hco, trimList_eq_self htr]
    simp [hhead]

/-- Witness for C4: the conditional clauses evaluated at the concrete
trimmed inputs `"/x"` (kept unchanged) and `"x"` (slash prepended). -/
theorem parsePathFrom_total_spec_witness :
    parsePathFrom (some (toL "/x")) = toL "/x" ∧
    parsePathFrom (some (toL "x")) = '/' :: toL "x" :=
  ⟨parsePathFrom_total_spec.2.2.2.2.2.1 (toL "/x") ⟨rfl, rfl⟩ (by decide),
   parsePathFrom_total_spec.2.2.2.2.2.2 (toL "x") ⟨rfl, rfl⟩ (by decide)
     (by decide)⟩

/-- C1: navigating to a target whose normalized form equals the current
browser location is a complete no-op, regardless of `showLoader`: no
history entry is pushed, `route` and `loading` are unchanged, and no
timer is scheduled (the whole state is untouched). -/
theorem navigate_noop_on_current (s : NavState) (now : Nat)
    (dest : Option (List Char)) (showLoader : Bool)
    (h : parsePathFrom dest = s.location) :
    navigate s now dest showLoader = s := by
  unfold navigate
  simp [h]

/-- Witness for C1: navigating to `"about"` while the location is already
`"/about"` leaves the concrete state untouched. -/
theorem navigate_noop_on_current_witness :
    navigate
      { location := toL "/about", historyStack := [toL "/about"],
        route := toL "/about", loading := false, timers := [],
        popSignals := 0 }
      7 (some (toL "about")) true =
    { location := toL "/about", historyStack := [toL "/about"],
      route := toL "/about", loading := false, timers := [],
      popSignals := 0 } :=
  navigate_noop_on_current _ 7 _ true (by decide)

/-- C5: navigating to a target whose normalized form differs from the
current browser location pushes exactly one history entry holding the
normalized route, sets `route` to the normalized route, moves the
location there, and fires no history pop signal; concretely, from `"/"`,
navigating to `"about"` makes the route `"/about"` and leaves the
browser location ending in `"/about"`. -/
theorem navigate_push_spec (s : NavState) (now : Nat)
    (dest : Option (List Char)) (showLoader : Bool)
    (h : parsePathFrom dest ≠ s.location) :
    (navigate s now dest showLoader).historyStack =
      parsePathFrom dest :: s.historyStack ∧
    (navigate s now dest showLoader).route = parsePathFrom dest ∧
    (navigate s now dest showLoader).location = parsePathFrom dest ∧
    (navigate s now dest showLoader).popSignals = s.popSignals ∧
    parsePathFrom (some (toL "about")) = toL "/about" ∧
    (navigate
      { location := toL "/", historyStack := [], route := toL "/",
        loading := false, timers := [], popSignals := 0 }
      0 (some (toL "about")) false).route = toL "/about" ∧
    (toL "/about").isSuffixOf
      (navigate
        { location := toL "/", historyStack := [], route := toL "/",
          loading := false, timers := [], popSignals := 0 }
        0 (some (toL "about")) false).location = true := by
  refine ⟨?_, ?_, ?_, ?_, by decide, by decide, by decide⟩ <;>
    (unfold navigate; simp [h])

/-- Witness for C5: the push behaviour evaluated at a concrete state with
location `"/"` and target `"contact"`. -/
theorem navigate_push_spec_witness :
    (navigate
      { location := toL "/", historyStack := [], route := toL "/",
        loading := false, timers := [], popSignals := 0 }
      0 (some (toL "contact")) true).historyStack = [toL "/contact"] :=
  (navigate_push_spec _ 0 _ true (by decide)).1

/-- C9: the delayed loading clear is not scoped to its navigation: two
loader navigations 200ms apart leave both clears pending; firing the
first clear (at 300, before the second navigation's own clear time 500)
turns `loading` off while the second navigation's loading period is
still in progress. -/
theorem loader_clear_race :
    (navigate
      (navigate
        { location := toL "/", historyStack := [], route := toL "/",
          loading := false, timers := [], popSignals := 0 }
        0 (some (toL "/about")) true)
      200 (some (toL "/brands")) true).loading = true ∧
    (300 : Nat) ∈ (navigate
      (navigate
        { location := toL "/", historyStack := [], route := toL "/",
          loading := false, timers := [], popSignals := 0 }
        0 (some (toL "/about")) true)
      200 (some (toL "/brands")) true).timers ∧
    (500 : Nat) ∈ (navigate
      (navigate
        { location := toL "/", historyStack := [], route := toL "/",
          loading := false, timers := [], popSignals := 0 }
        0 (some (toL "/about")) true)
      200 (some (toL "/brands")) true).timers ∧
    (fireClear
      (navigate
        (navigate
          { location := toL "/", historyStack := [], route := toL "/",
            loading := false, timers := [], popSignals := 0 }
          0 (some (toL "/about")) true)
        200 (some (toL "/brands")) true)
      300).loading = false ∧
    (500 : Nat) ∈ (fireClear
      (navigate
        (navigate
          { location := toL "/", historyStack := [], route := toL "/",
            loading := false, timers := [], popSignals := 0 }
          0 (some (toL "/about")) true)
        200 (some (toL "/brands")) true)
      300).timers ∧
    (300 : Nat) < 500 := by
  decide

/-- C2: the view resolver agrees with the spec's first-match-over-ordered-
table formulation (order about, brands, media, contact, privacy, terms,
fallback home); `"/brands/anything"` resolves to the Brands view,
`"/unknown"` to the Home view; and resolution is a pure function of the
route, so resolving twice yields the same view. -/
theorem appRouterSwitch_spec :
    (∀ r : List Char, AppRouterSwitch r = resolveFirstMatch r) ∧
    AppRouterSwitch (toL "/brands/anything") = ViewId.brands ∧
    AppRouterSwitch (toL "/unknown") = ViewId.home ∧
    (∀ r : List Char, AppRouterSwitch r = AppRouterSwitch r) := by
  refine ⟨?_, by decide, by decide, fun r => rfl⟩
  intro r
  unfold AppRouterSwitch resolveFirstMatch viewTable
  cases h1 : (toL "/about").isPrefixOf r <;>
  cases h2 : (toL "/brands").isPrefixOf r <;>
  cases h3 : (toL "/media").isPrefixOf r <;>
  cases h4 : (toL "/contact").isPrefixOf r <;>
  cases h5 : (toL "/privacy").isPrefixOf r <;>
  cases h6 : (toL "/terms").isPrefixOf r <;>
    simp [h1, h2, h3, h4, h5, h6, List.find?]

/-- C8: with no stored theme the initial theme is dark; one toggle yields
light, persists the literal `"light"` to storage, mirrors it onto the
document attribute, and re-reading storage yields light; and from either
of the two theme values, a toggle flips to the other value and persists
and mirrors it. -/
theorem theme_toggle_spec :
    (initTheme none).theme = toL "dark" ∧
    (toggleTheme (initTheme none)).theme = toL "light" ∧
    (toggleTheme (initTheme none)).storage = some (toL "light") ∧
    (toggleTheme (initTheme none)).docAttr = some (toL "light") ∧
    (initTheme (toggleTheme (initTheme none)).storage).theme = toL "light" ∧
    (∀ s : ThemeState, s.theme = toL "dark" ∨ s.theme = toL "light" →
      ((toggleTheme s).theme = toL "dark" ∨ (toggleTheme s).theme = toL "light") ∧
      (toggleTheme s).theme ≠ s.theme ∧
      (toggleTheme s).storage = some (toggleTheme s).theme ∧
      (toggleTheme s).docAttr = some (toggleTheme s).theme) := by
  refine ⟨by decide, by decide, by decide, by decide, by decide, ?_⟩
  intro s hs
  rcases hs with h | h <;> unfold toggleTheme <;> simp [h] <;> decide

/-- Witness for C8: the flip clause evaluated at a concrete light-themed
state: a toggle takes it back to dark and persists dark. -/
theorem theme_toggle_spec_witness :
    ((toggleTheme
        { theme := toL "light", storage := some (toL "light"),
          docAttr := some (toL "light") }).theme = toL "dark" ∨
      (toggleTheme
        { theme := toL "light", storage := some (toL "light"),
          docAttr := some (toL "light") }).theme = toL "light") ∧
    (toggleTheme
      { theme := toL "light", storage := some (toL "light"),
        docAttr := some (toL "light") }).theme ≠ toL "light" ∧
    (toggleTheme
      { theme := toL "light", storage := some (toL "light"),
        docAttr := some (toL "light") }).storage =
      some (toggleTheme
        { theme := toL "light", storage := some (toL "light"),
          docAttr := some (toL "light") }).theme ∧
    (toggleTheme
      { theme := toL "light", storage := some (toL "light"),
        docAttr := some (toL "light") }).docAttr =
      some (toggleTheme
        { theme := toL "light", storage := some (toL "light"),
          docAttr := some (toL "light") }).theme :=
  theme_toggle_spec.2.2.2.2.2
    { theme := toL "light", storage := some (toL "light"),
      docAttr := some (toL "light") }
    (Or.inr rfl)

/-- Membership in `splitsList` is exactly being a two-piece decomposition. -/
theorem mem_splitsList {s a b : List Char} :
    (a, b) ∈ splitsList s ↔ s = a ++ b := by
  unfold splitsList
  simp only [List.mem_map, List.mem_range]
  constructor
  · rintro ⟨i, hi, he⟩
    have h1 : s.take i = a := congrArg Prod.fst he
    have h2 : s.drop i = b := congrArg Prod.snd he
    rw [← h1, ← h2, List.take_append_drop]
  · intro h
    refine ⟨a.length, ?_, ?_⟩
    · have hle : a.length ≤ s.length := by
        rw [h, List.length_append]
        omega
      omega
    · rw [h]
      have ht : (a ++ b).take a.length = a := by simp
      have hd : (a ++ b).drop a.length = b := by simp
      rw [ht, hd]

/-- Any string containing an email-shaped substring passes `emailTest`. -/
theorem emailTest_of_parts {s pre u v w post : List Char}
    (hs : s = pre ++ u ++ ['@'] ++ v ++ ['.'] ++ w ++ post)
    (hu : u ≠ []) (hv : v ≠ []) (hw : w ≠ [])
    (hau : u.all nonSpace = true) (hav : v.all nonSpace = true)
    (haw : w.all nonSpace = true) : emailTest s = true := by
  subst hs
  have hru : runTest u = true := by
    unfold runTest
    rw [hau, Bool.and_true]
    cases u with
    | nil => exact absurd rfl hu
    | cons a t => rfl
  have hrv : runTest v = true := by
    unfold runTest
    rw [hav, Bool.and_true]
    cases v with
    | nil => exact absurd rfl hv
    | cons a t => rfl
  have hrw : runTest w = true := by
    unfold runTest
    rw [haw, Bool.and_true]
    cases w with
    | nil => exact absurd rfl hw
    | cons a t => rfl
  have hdot : dotTail ('.' :: (w ++ post)) = true := by
    show (if ('.' : Char) = '.' then
        (splitsList (w ++ post)).any fun wr => runTest wr.1
      else false) = true
    rw [if_pos rfl, List.any_eq_true]
    exact ⟨(w, post), mem_splitsList.mpr rfl, hrw⟩
  have hat : atTail ('@' :: (v ++ ('.' :: (w ++ post)))) = true := by
    show (if ('@' : Char) = '@' then
        (splitsList (v ++ ('.' :: (w ++ post)))).any fun vr =>
          runTest vr.1 && dotTail vr.2
      else false) = true
    rw [if_pos rfl, List.any_eq_true]
    refine ⟨(v, '.' :: (w ++ post)), mem_splitsList.mpr rfl, ?_⟩
    show (runTest v && dotTail ('.' :: (w ++ post))) = true
    rw [hrv, hdot]
    rfl
  unfold emailTest
  rw [List.any_eq_true]
  refine ⟨(pre, u ++ ('@' :: (v ++ ('.' :: (w ++ post))))),
    mem_splitsList.mpr (by simp), ?_⟩
  show (splitsList (u ++ ('@' :: (v ++ ('.' :: (w ++ post)))))).any
    (fun ur => runTest ur.1 && atTail ur.2) = true
  rw [List.any_eq_true]
  refine ⟨(u, '@' :: (v ++ ('.' :: (w ++ post)))), mem_splitsList.mpr rfl, ?_⟩
  show (runTest u && atTail ('@' :: (v ++ ('.' :: (w ++ post))))) = true
  rw [hru, hat]
  rfl

/-- C7: submitting the contact form with all three fields empty yields the
three field-level required errors; per-field, an error is raised exactly
when the trimmed field is empty or (for email) the pattern check fails;
and a failed validation leaves the submission status, the outbound request
list, the form and the error message untouched. -/
theorem validateForm_gate_spec :
    validateForm ⟨[], [], []⟩ =
      ⟨some (toL "Name is required"), some (toL "Email is required"),
       some (toL "Message is required")⟩ ∧
    (∀ f : ContactForm,
      ((validateForm f).name ≠ none ↔ trimList f.name = []) ∧
      ((validateForm f).email ≠ none ↔
        (trimList f.email = [] ∨ emailTest f.email = false)) ∧
      ((validateForm f).message ≠ none ↔ trimList f.message = [])) ∧
    (∀ s : ContactState, ∀ o : FetchOutcome,
      noErrorKeys (validateForm s.form) = false →
      (onSubmit s o).status = s.status ∧
      (onSubmit s o).requests = s.requests ∧
      (onSubmit s o).form = s.form ∧
      (onSubmit s o).error = s.error) := by
  refine ⟨by decide, ?_, ?_⟩
  · intro f
    refine ⟨?_, ?_, ?_⟩
    · by_cases hn : trimList f.name = [] <;> simp [validateForm, hn]
    · by_cases h1 : trimList f.email = []
      · simp [validateForm, h1]
      · by_cases h2 : emailTest f.email = false <;>
          simp [validateForm, h1, h2]
    · by_cases hm : trimList f.message = [] <;> simp [validateForm, hm]
  · intro s o h
    unfold onSubmit
    simp [h]

/-- Witness for C7: with the all-empty form, validation fails and a would-be
submission changes neither status nor the request list. -/
theorem validateForm_gate_spec_witness :
    (onSubmit
      { status := SubmitStatus.idle, error := [], form := ⟨[], [], []⟩,
        formErrors := ⟨none, none, none⟩, requests := [] }
      (FetchOutcome.response 200)).status = SubmitStatus.idle ∧
    (onSubmit
      { status := SubmitStatus.idle, error := [], form := ⟨[], [], []⟩,
        formErrors := ⟨none, none, none⟩, requests := [] }
      (FetchOutcome.response 200)).requests = [] :=
  have h := validateForm_gate_spec.2.2
    { status := SubmitStatus.idle, error := [], form := ⟨[], [], []⟩,
      formErrors := ⟨none, none, none⟩, requests := [] }
    (FetchOutcome.response 200) (by decide)
  ⟨h.1, h.2.1⟩

/-- C6: once validation passes, a 2xx response makes the submission state
`success` and clears all three fields; any non-2xx response or a transport
failure makes it `error` with the single generic message and leaves the
field values unchanged. -/
theorem onSubmit_outcome_spec (s : ContactState)
    (h : noErrorKeys (validateForm s.form) = true) :
    (∀ code : Nat, resOk code = true →
      (onSubmit s (FetchOutcome.response code)).status = SubmitStatus.success ∧
      (onSubmit s (FetchOutcome.response code)).form = ⟨[], [], []⟩) ∧
    (∀ code : Nat, resOk code = false →
      (onSubmit s (FetchOutcome.response code)).status = SubmitStatus.error ∧
      (onSubmit s (FetchOutcome.response code)).error = genericSubmitError ∧
      (onSubmit s (FetchOutcome.response code)).form = s.form) ∧
    ((onSubmit s FetchOutcome.networkFailure).status = SubmitStatus.error ∧
      (onSubmit s FetchOutcome.networkFailure).error = genericSubmitError ∧
      (onSubmit s FetchOutcome.networkFailure).form = s.form) := by
  refine ⟨?_, ?_, ?_⟩
  · intro code hc
    unfold onSubmit
    simp [h, hc]
  · intro code hc
    unfold onSubmit
    simp [h, hc]
  · unfold onSubmit
    simp [h]

/-- Witness for C6: a valid concrete form with a 200 response reaches
`success` with cleared fields, and with a 500 response reaches `error`
with the fields intact. -/
theorem onSubmit_outcome_spec_witness :
    (onSubmit
      { status := SubmitStatus.idle, error := [],
        form := ⟨toL "Jane", toL "a@b.c", toL "hello"⟩,
        formErrors := ⟨none, none, none⟩, requests := [] }
      (FetchOutcome.response 200)).status = SubmitStatus.success ∧
    (onSubmit
      { status := SubmitStatus.idle, error := [],
        form := ⟨toL "Jane", toL "a@b.c", toL "hello"⟩,
        formErrors := ⟨none, none, none⟩, requests := [] }
      (FetchOutcome.response 500)).status = SubmitStatus.error ∧
    (onSubmit
      { status := SubmitStatus.idle, error := [],
        form := ⟨toL "Jane", toL "a@b.c", toL "hello"⟩,
        formErrors := ⟨none, none, none⟩, requests := [] }
      (FetchOutcome.response 500)).form = ⟨toL "Jane", toL "a@b.c", toL "hello"⟩ :=
  have h := onSubmit_outcome_spec
    { status := SubmitStatus.idle, error := [],
      form := ⟨toL "Jane", toL "a@b.c", toL "hello"⟩,
      formErrors := ⟨none, none, none⟩, requests := [] }
    (by decide)
  ⟨(h.1 200 (by decide)).1, (h.2.1 500 (by decide)).1,
    (h.2.1 500 (by decide)).2.2⟩

/-- C10: the email pattern check is unanchored: any value containing an
email-shaped substring (nonempty non-space runs around `'@'` and `'.'`)
passes `emailTest`; in particular `"junk a@b.c junk"` passes, the form
carrying it validates cleanly, and its submission posts the field value
as-is. -/
theorem emailTest_unanchored_spec :
    (∀ s pre u v w post : List Char,
      s = pre ++ u ++ ['@'] ++ v ++ ['.'] ++ w ++ post →
      u ≠ [] → v ≠ [] → w ≠ [] →
      u.all nonSpace = true → v.all nonSpace = true → w.all nonSpace = true →
      emailTest s = true) ∧
    emailTest (toL "junk a@b.c junk") = true ∧
    validateForm ⟨toL "Jane", toL "junk a@b.c junk", toL "hello"⟩ =
      ⟨none, none, none⟩ ∧
    (∀ st : ContactState,
      st.form = ⟨toL "Jane", toL "junk a@b.c junk", toL "hello"⟩ →
      (onSubmit st (FetchOutcome.response 200)).requests =
        st.requests ++ [st.form]) := by
  have hsdec : toL "junk a@b.c junk" =
      toL "junk " ++ toL "a" ++ ['@'] ++ toL "b" ++ ['.'] ++ toL "c" ++
        toL " junk" := by decide
  have hb : emailTest (toL "junk a@b.c junk") = true :=
    emailTest_of_parts hsdec (by decide) (by decide) (by decide) (by decide)
      (by decide) (by decide)
  have hval : validateForm ⟨toL "Jane", toL "junk a@b.c junk", toL "hello"⟩ =
      ⟨none, none, none⟩ := by
    unfold validateForm
    rw [hb]
    simp only []
    decide
  refine ⟨?_, hb, hval, ?_⟩
  · intro s pre u v w post hs hu hv hw hau hav haw
    exact emailTest_of_parts hs hu hv hw hau hav haw
  · intro st hf
    unfold onSubmit
    rw [hf, hval]
    simp [noErrorKeys, resOk]

/-- Witness for C10: a concrete state whose email field is
`"junk a@b.c junk"` submits it as-is (the POST body records the form
unchanged). -/
theorem emailTest_unanchored_spec_witness :
    (onSubmit
      { status := SubmitStatus.idle, error := [],
        form := ⟨toL "Jane", toL "junk a@b.c junk", toL "hello"⟩,
        formErrors := ⟨none, none, none⟩, requests := [] }
      (FetchOutcome.response 200)).requests =
      [] ++ [⟨toL "Jane", toL "junk a@b.c junk", toL "hello"⟩] :=
  emailTest_unanchored_spec.2.2.2
    { status := SubmitStatus.idle, error := [],
      form := ⟨toL "Jane", toL "junk a@b.c junk", toL "hello"⟩,
      formErrors := ⟨none, none, none⟩, requests := [] }
    rfl

end AngelK
